import Mathlib

/-!
Verification development for the AeroCog UAV orchestration core.

The repository contains two copies of the orchestration pipeline,
`src/orchestrator_demo.py` and `src/agentic/orchestrator_demo.py`.  The
shallow embedding below translates the pure logic of both copies:

* `parse_user_prompt`        (intent extractor),
* `summarize_video_features` (observation digest builder),
* `expected_payload_schema`  (contract definition),
* `validate_payload`         (payload validator),
* `build_user_content`       (user-side prompt builder, agentic copy),
* the credential guard of `call_llm` (LLM transport).

Python JSON-like values are modelled by the inductive type `Json`
(numbers as rationals; exact floating-point formatting is out of scope).
Python operations that can raise (`in` on a non-container, `[...]` on a
missing key, `float(...)` of a non-numeric value) are modelled in the
`Except Unit` monad, where `.error ()` stands for a raised exception.
-/

/-- A Python/JSON value.  Numbers are modelled as rationals. -/
inductive Json where
  | null : Json
  | bool : Bool → Json
  | num : ℚ → Json
  | str : String → Json
  | arr : List Json → Json
  | obj : List (String × Json) → Json

mutual

/-- Structural equality test on `Json` (Python `==` on JSON-like data). -/
def Json.beq : Json → Json → Bool
  | .null, .null => true
  | .bool a, .bool b => a == b
  | .num a, .num b => a == b
  | .str a, .str b => a == b
  | .arr xs, .arr ys => Json.beqArr xs ys
  | .obj xs, .obj ys => Json.beqObj xs ys
  | _, _ => false

/-- Elementwise equality of JSON arrays. -/
def Json.beqArr : List Json → List Json → Bool
  | [], [] => true
  | x :: xs, y :: ys => Json.beq x y && Json.beqArr xs ys
  | _, _ => false

/-- Pairwise equality of JSON object bindings, order-sensitive. -/
def Json.beqObj : List (String × Json) → List (String × Json) → Bool
  | [], [] => true
  | (k, v) :: xs, (l, w) :: ys => k == l && Json.beq v w && Json.beqObj xs ys
  | _, _ => false

end

instance : BEq Json := ⟨Json.beq⟩

/-- A Python `dict` with string keys, in insertion order. -/
abbrev PyDict := List (String × Json)

/-- Key membership in a dict (`k in d` for a Python dict). -/
def hasKey (d : PyDict) (k : String) : Bool :=
  d.any (fun kv => kv.1 == k)

/-- Dict lookup returning the first binding (`d.get(k)` / `d[k]`). -/
def pyLookup (d : PyDict) (k : String) : Option Json :=
  (d.find? (fun kv => kv.1 == k)).map (·.2)

/-- Python `d.get(k, default)`. -/
def pyGetD (d : PyDict) (k : String) (dflt : Json) : Json :=
  (pyLookup d k).getD dflt

/-- Python `d[k]`: raises `KeyError` when the key is absent. -/
def pyGetItem (d : PyDict) (k : String) : Except Unit Json :=
  match pyLookup d k with
  | some v => .ok v
  | none => .error ()

/-- Whether `needle` occurs as a contiguous subsequence of `hay`. -/
def isSubSeq (needle : List Char) : List Char → Bool
  | [] => needle.isEmpty
  | c :: cs => needle.isPrefixOf (c :: cs) || isSubSeq needle cs

/-- Python `needle in hay` for strings: substring containment. -/
def pyIn (needle hay : String) : Bool :=
  isSubSeq needle.data hay.data

/-- Python `text.lower()`, modelled as per-character ASCII lowering
(Unicode case mapping is out of scope; every keyword the extractor
matches is ASCII). -/
def pyLower (s : String) : String :=
  ⟨s.data.map Char.toLower⟩

/-- Python `k in v` for an arbitrary value `v` and a string `k`:
key membership for dicts, substring containment for strings, element
equality for lists; any other operand raises `TypeError`. -/
def pyContains (v : Json) (k : String) : Except Unit Bool :=
  match v with
  | .obj kvs => .ok (hasKey kvs k)
  | .str s => .ok (pyIn k s)
  | .arr xs => .ok (xs.any (fun x => x == Json.str k))
  | _ => .error ()

/-- Python slice `xs[-n:]` for a non-negative count `n`: the last `n`
elements, the whole list when `n = 0` (slice from `-0` is from `0`) or
when `n ≥ len(xs)`. -/
def pySliceLast (xs : List α) (n : Nat) : List α :=
  if n = 0 then xs else xs.drop (xs.length - n)


/-- Python `float(x)` on a JSON-like value: numbers and booleans
convert; other operands raise.  (Conversion of numeric strings is not
modelled; no caller of the digest builder relies on it.) -/
def pyFloat : Json → Except Unit ℚ
  | .num q => .ok q
  | .bool b => .ok (if b then 1 else 0)
  | _ => .error ()


/-- Python `round(x, 3)`, modelled on rationals as rounding
`1000 * x` to the nearest integer and dividing back (tie behaviour and
binary float representation are out of scope; no claim depends on
them).  For `x = n / d` with `d > 0`, the nearest integer to
`1000 * x + 1 / 2` rounded down is `(2 * n * 1000 + d) / (2 * d)`
with floor division; the arithmetic is written on the numerator and
denominator directly. -/
def round3 (q : ℚ) : ℚ :=
  mkRat ((2 * q.num * 1000 + (q.den : ℤ)).ediv (2 * (q.den : ℤ))) 1000


/-- The `for`-append loop over a list, propagating the first raised
exception. -/
def mapLoop (f : α → Except Unit β) : List α → Except Unit (List β)
  | [] => .ok []
  | x :: xs =>
    match f x with
    | .error e => .error e
    | .ok y =>
      match mapLoop f xs with
      | .error e => .error e
      | .ok ys => .ok (y :: ys)


/-- The list iterated by `for k in schema["required"]`.  Every element
of the `required` array of the schema is a string literal, so non-string
elements (which cannot occur) are skipped. -/
def schemaRequiredKeys (schema : Json) : List String :=
  match schema with
  | .obj kvs =>
    match pyLookup kvs "required" with
    | some (.arr xs) =>
      xs.filterMap (fun x => match x with | .str s => some s | _ => none)
    | _ => []
  | _ => []


/-- A single-quote character, used by the Python `repr` of a string. -/
def squote : String := String.mk [Char.ofNat 39]


/-- The text produced by interpolating the list `missing` of plain
strings into the failure message: the Python list repr with
single-quoted elements. -/
def pyStrListRepr (xs : List String) : String :=
  "[" ++ String.intercalate ", " (xs.map (fun s => squote ++ s ++ squote))
    ++ "]"

/-- The dict literal returned by `parse_user_prompt` in both copies:
`intent` is a string, `targets` a list of strings, `constraints` a
string-to-int mapping, `success` a string-to-bool mapping,
`ambiguities` a list of strings. -/
structure MissionIntent where
  intent : String
  targets : List String
  constraints : List (String × Int)
  success : List (String × Bool)
  ambiguities : List String
deriving DecidableEq

namespace AgenticDemo

/-!  Embedding of `src/agentic/orchestrator_demo.py`. -/

/-- Embedding of `parse_user_prompt` (src/agentic/orchestrator_demo.py lines 27-54). -/
def parse_user_prompt (text : String) : MissionIntent :=
  let t := pyLower text
  let intent :=
    if pyIn "photo" t || pyIn "picture" t then "capture_photo"
    else if pyIn "coffee shop" t then "search_poi"
    else "navigate"
  let targets :=
    (if pyIn "red house" t then ["red house"] else []) ++
    (if pyIn "coffee shop" t then
      ["coffee shop"] ++ (if pyIn "open" t then ["open_now"] else [])
    else [])
  let constraints : List (String × Int) :=
    if pyIn "2 mile" t || pyIn "two mile" t then [("radius_m", 3218)] else []
  let success : List (String × Bool) :=
    if intent = "capture_photo" then [("photo_saved", true)]
    else if intent = "search_poi" then [("answer_yes_no", true)]
    else []
  { intent := intent
    targets := if targets = [] then ["target"] else targets
    constraints := constraints
    success := success
    ambiguities := [] }

/-- The object summary built inside the digest loop:
`{"label": o.get("label"), "score": round(float(o.get("score", 0)), 3),
"box": o.get("box")}`.  A non-dict element raises (`o.get` on a
non-dict is an `AttributeError`). -/
def summarizeObj : Json → Except Unit Json
  | .obj kvs =>
    match pyFloat (pyGetD kvs "score" (.num 0)) with
    | .error e => .error e
    | .ok f =>
      .ok (.obj [("label", pyGetD kvs "label" .null),
                 ("score", .num (round3 f)),
                 ("box", pyGetD kvs "box" .null)])
  | _ => .error ()

/-- One iteration of the frame loop of `summarize_video_features`:
truncate `fr.get("objects", [])` to the first `max_objs` entries and
summarize each, keeping the frame timestamp.  A non-list `objects`
value raises. -/
def summarizeFrame (max_objs : Nat) (fr : PyDict) : Except Unit PyDict :=
  match pyGetD fr "objects" (.arr []) with
  | .arr objs =>
    match mapLoop summarizeObj (objs.take max_objs) with
    | .error e => .error e
    | .ok outs => .ok [("ts", pyGetD fr "ts" .null), ("objects", .arr outs)]
  | _ => .error ()

/-- Embedding of `summarize_video_features`
(src/agentic/orchestrator_demo.py lines 56-73). -/
def summarize_video_features (features : List PyDict)
    (max_frames max_objs : Nat) : Except Unit (List PyDict) :=
  if features.isEmpty then .ok []
  else mapLoop (summarizeFrame max_objs) (pySliceLast features max_frames)

/-- Embedding of `expected_payload_schema`
(src/agentic/orchestrator_demo.py lines 79-130). -/
def expected_payload_schema : Json :=
  .obj
    [("type", .str "object"),
     ("required", .arr [.str "task_id", .str "mission",
        .str "environment_summary", .str "plan", .str "safety",
        .str "server_payload"]),
     ("properties", .obj
       [("task_id", .obj [("type", .str "string")]),
        ("mission", .obj
          [("type", .str "object"),
           ("required", .arr [.str "intent", .str "targets",
              .str "constraints", .str "success"]),
           ("properties", .obj
             [("intent", .obj [("type", .str "string")]),
              ("targets", .obj [("type", .str "array"),
                 ("items", .obj [("type", .str "string")])]),
              ("constraints", .obj [("type", .str "object")]),
              ("success", .obj [("type", .str "object")])])]),
        ("environment_summary", .obj
          [("type", .str "object"),
           ("required", .arr [.str "video_digest"]),
           ("properties", .obj
             [("video_digest", .obj [("type", .str "array")])])]),
        ("plan", .obj
          [("type", .str "object"),
           ("required", .arr [.str "high_level_steps", .str "next_action"]),
           ("properties", .obj
             [("high_level_steps", .obj [("type", .str "array"),
                ("items", .obj [("type", .str "string")])]),
              ("next_action", .obj [("type", .str "object")])])]),
        ("safety", .obj
          [("type", .str "object"),
           ("required", .arr [.str "geofence", .str "altitude_min_m",
              .str "altitude_max_m", .str "low_battery_pct"]),
           ("properties", .obj
             [("geofence", .obj [("type", .str "array")]),
              ("altitude_min_m", .obj [("type", .str "number")]),
              ("altitude_max_m", .obj [("type", .str "number")]),
              ("low_battery_pct", .obj [("type", .str "number")])])]),
        ("server_payload", .obj
          [("type", .str "object"),
           ("required", .arr [.str "timestamp", .str "llm_version",
              .str "data"]),
           ("properties", .obj
             [("timestamp", .obj [("type", .str "number")]),
              ("llm_version", .obj [("type", .str "string")]),
              ("data", .obj [("type", .str "object")])])])])]

/-- The `for k in [...]` loop over mission sub-keys: returns the first
key `k` with `k not in mission`, or `none` when all membership tests
pass; propagates a raised `TypeError`. -/
def firstMissingKey (v : Json) : List String → Except Unit (Option String)
  | [] => .ok none
  | k :: ks =>
    match pyContains v k with
    | .error e => .error e
    | .ok true => firstMissingKey v ks
    | .ok false => .ok (some k)

/-- Embedding of `validate_payload` (src/agentic/orchestrator_demo.py lines 270-282). -/
def validate_payload (payload : PyDict) : Except Unit (Bool × String) :=
  let missing := (schemaRequiredKeys expected_payload_schema).filter
    (fun k => !(hasKey payload k))
  if missing.isEmpty then
    match pyGetItem payload "mission" with
    | .error e => .error e
    | .ok mission =>
      match firstMissingKey mission
          ["intent", "targets", "constraints", "success"] with
      | .error e => .error e
      | .ok (some k) => .ok (false, "mission." ++ k ++ " missing")
      | .ok none =>
        match pyGetItem payload "environment_summary" with
        | .error e => .error e
        | .ok env =>
          match pyContains env "video_digest" with
          | .error e => .error e
          | .ok false =>
            .ok (false, "environment_summary.video_digest missing")
          | .ok true =>
            match pyGetItem payload "plan" with
            | .error e => .error e
            | .ok plan =>
              match pyContains plan "next_action" with
              | .error e => .error e
              | .ok false => .ok (false, "plan.next_action missing")
              | .ok true => .ok (true, "ok")
  else
    .ok (false, "Missing keys: " ++ pyStrListRepr missing)

end AgenticDemo

namespace RootDemo

/-!  Embedding of `src/orchestrator_demo.py` (the second, textually
duplicated copy of the pipeline at the repository root). -/

/-- Embedding of `parse_user_prompt` (src/orchestrator_demo.py lines 23-50). -/
def parse_user_prompt (text : String) : MissionIntent :=
  let t := pyLower text
  let intent :=
    if pyIn "photo" t || pyIn "picture" t then "capture_photo"
    else if pyIn "coffee shop" t then "search_poi"
    else "navigate"
  let targets :=
    (if pyIn "red house" t then ["red house"] else []) ++
    (if pyIn "coffee shop" t then
      ["coffee shop"] ++ (if pyIn "open" t then ["open_now"] else [])
    else [])
  let constraints : List (String × Int) :=
    if pyIn "2 mile" t || pyIn "two mile" t then [("radius_m", 3218)] else []
  let success : List (String × Bool) :=
    if intent = "capture_photo" then [("photo_saved", true)]
    else if intent = "search_poi" then [("answer_yes_no", true)]
    else []
  { intent := intent
    targets := if targets = [] then ["target"] else targets
    constraints := constraints
    success := success
    ambiguities := [] }

/-- The object summary of the digest loop in src/orchestrator_demo.py
(lines 62-67), identical to the agentic copy. -/
def summarizeObj : Json → Except Unit Json
  | .obj kvs =>
    match pyFloat (pyGetD kvs "score" (.num 0)) with
    | .error e => .error e
    | .ok f =>
      .ok (.obj [("label", pyGetD kvs "label" .null),
                 ("score", .num (round3 f)),
                 ("box", pyGetD kvs "box" .null)])
  | _ => .error ()

/-- One iteration of the frame loop of `summarize_video_features`
(src/orchestrator_demo.py lines 58-68). -/
def summarizeFrame (max_objs : Nat) (fr : PyDict) : Except Unit PyDict :=
  match pyGetD fr "objects" (.arr []) with
  | .arr objs =>
    match mapLoop summarizeObj (objs.take max_objs) with
    | .error e => .error e
    | .ok outs => .ok [("ts", pyGetD fr "ts" .null), ("objects", .arr outs)]
  | _ => .error ()

/-- Embedding of `summarize_video_features` (src/orchestrator_demo.py lines 52-69). -/
def summarize_video_features (features : List PyDict)
    (max_frames max_objs : Nat) : Except Unit (List PyDict) :=
  if features.isEmpty then .ok []
  else mapLoop (summarizeFrame max_objs) (pySliceLast features max_frames)

/-- Embedding of `expected_payload_schema` (src/orchestrator_demo.py lines 75-126). -/
def expected_payload_schema : Json :=
  .obj
    [("type", .str "object"),
     ("required", .arr [.str "task_id", .str "mission",
        .str "environment_summary", .str "plan", .str "safety",
        .str "server_payload"]),
     ("properties", .obj
       [("task_id", .obj [("type", .str "string")]),
        ("mission", .obj
          [("type", .str "object"),
           ("required", .arr [.str "intent", .str "targets",
              .str "constraints", .str "success"]),
           ("properties", .obj
             [("intent", .obj [("type", .str "string")]),
              ("targets", .obj [("type", .str "array"),
                 ("items", .obj [("type", .str "string")])]),
              ("constraints", .obj [("type", .str "object")]),
              ("success", .obj [("type", .str "object")])])]),
        ("environment_summary", .obj
          [("type", .str "object"),
           ("required", .arr [.str "video_digest"]),
           ("properties", .obj
             [("video_digest", .obj [("type", .str "array")])])]),
        ("plan", .obj
          [("type", .str "object"),
           ("required", .arr [.str "high_level_steps", .str "next_action"]),
           ("properties", .obj
             [("high_level_steps", .obj [("type", .str "array"),
                ("items", .obj [("type", .str "string")])]),
              ("next_action", .obj [("type", .str "object")])])]),
        ("safety", .obj
          [("type", .str "object"),
           ("required", .arr [.str "geofence", .str "altitude_min_m",
              .str "altitude_max_m", .str "low_battery_pct"]),
           ("properties", .obj
             [("geofence", .obj [("type", .str "array")]),
              ("altitude_min_m", .obj [("type", .str "number")]),
              ("altitude_max_m", .obj [("type", .str "number")]),
              ("low_battery_pct", .obj [("type", .str "number")])])]),
        ("server_payload", .obj
          [("type", .str "object"),
           ("required", .arr [.str "timestamp", .str "llm_version",
              .str "data"]),
           ("properties", .obj
             [("timestamp", .obj [("type", .str "number")]),
              ("llm_version", .obj [("type", .str "string")]),
              ("data", .obj [("type", .str "object")])])])])]

/-- The `for k in [...]` loop over mission sub-keys of
src/orchestrator_demo.py lines 244-246. -/
def firstMissingKey (v : Json) : List String → Except Unit (Option String)
  | [] => .ok none
  | k :: ks =>
    match pyContains v k with
    | .error e => .error e
    | .ok true => firstMissingKey v ks
    | .ok false => .ok (some k)

/-- Embedding of `validate_payload` (src/orchestrator_demo.py lines 239-251). -/
def validate_payload (payload : PyDict) : Except Unit (Bool × String) :=
  let missing := (schemaRequiredKeys expected_payload_schema).filter
    (fun k => !(hasKey payload k))
  if missing.isEmpty then
    match pyGetItem payload "mission" with
    | .error e => .error e
    | .ok mission =>
      match firstMissingKey mission
          ["intent", "targets", "constraints", "success"] with
      | .error e => .error e
      | .ok (some k) => .ok (false, "mission." ++ k ++ " missing")
      | .ok none =>
        match pyGetItem payload "environment_summary" with
        | .error e => .error e
        | .ok env =>
          match pyContains env "video_digest" with
          | .error e => .error e
          | .ok false =>
            .ok (false, "environment_summary.video_digest missing")
          | .ok true =>
            match pyGetItem payload "plan" with
            | .error e => .error e
            | .ok plan =>
              match pyContains plan "next_action" with
              | .error e => .error e
              | .ok false => .ok (false, "plan.next_action missing")
              | .ok true => .ok (true, "ok")
  else
    .ok (false, "Missing keys: " ++ pyStrListRepr missing)

end RootDemo


/-- Decimal digits of a JSON escape code, two hex digits. -/
def hex2 (n : Nat) : List Char :=
  [Nat.digitChar (n / 16), Nat.digitChar (n % 16)]

/-- JSON escaping of a single character as performed by `json.dumps`
with `ensure_ascii=False`: quote, backslash and control characters are
escaped, everything else passes through. -/
def jsonEscapeChar (c : Char) : List Char :=
  if c = '"' then ['\\', '"']
  else if c = '\\' then ['\\', '\\']
  else if c = '\n' then ['\\', 'n']
  else if c = '\t' then ['\\', 't']
  else if c = '\r' then ['\\', 'r']
  else if c.toNat < 32 then '\\' :: 'u' :: '0' :: '0' :: hex2 c.toNat
  else [c]

/-- JSON escaping of a string (`ensure_ascii=False`). -/
def jsonEscape (s : String) : String :=
  ⟨(s.data.map jsonEscapeChar).flatten⟩

/-- Serialization of a JSON number.  Integers print exactly as Python
does; a non-integer rational is printed as an exact fraction, standing
in for Python float `repr` (binary floating-point formatting is out of
scope; no claim inspects a non-integer rendering). -/
def numRepr (q : ℚ) : String :=
  if q.den = 1 then toString q.num
  else toString q.num ++ "/" ++ toString q.den

/-- Two spaces of indentation per level, as `json.dumps(..., indent=2)`
emits. -/
def indentSp (lvl : Nat) : String :=
  String.mk (List.replicate (lvl * 2) ' ')

mutual

/-- Model of `json.dumps(v, ensure_ascii=False, indent=2)` at indentation level
`lvl`: atoms print inline, non-empty containers put each item on an
indented line, and the item separator is a comma followed by a newline. -/
def pyDumps2 (lvl : Nat) : Json → String
  | .null => "null"
  | .bool b => if b then "true" else "false"
  | .num q => numRepr q
  | .str s => "\"" ++ jsonEscape s ++ "\""
  | .arr [] => "[]"
  | .arr (x :: xs) =>
    "[\n" ++ dumpsArrItems (lvl + 1) x xs ++ "\n" ++ indentSp lvl ++ "]"
  | .obj [] => "\x7b\x7d"
  | .obj ((k, v) :: kvs) =>
    "\x7b\n" ++ dumpsObjItems (lvl + 1) k v kvs ++ "\n" ++ indentSp lvl
      ++ "\x7d"
termination_by j => sizeOf j

/-- The comma-and-newline separated items of a non-empty array. -/
def dumpsArrItems (lvl : Nat) (x : Json) : List Json → String
  | [] => indentSp lvl ++ pyDumps2 lvl x
  | y :: ys =>
    indentSp lvl ++ pyDumps2 lvl x ++ ",\n" ++ dumpsArrItems lvl y ys
termination_by ys => sizeOf x + sizeOf ys

/-- The comma-and-newline separated bindings of a non-empty object. -/
def dumpsObjItems (lvl : Nat) (k : String) (v : Json) :
    List (String × Json) → String
  | [] =>
    indentSp lvl ++ "\"" ++ jsonEscape k ++ "\": " ++ pyDumps2 lvl v
  | (l, w) :: ls =>
    indentSp lvl ++ "\"" ++ jsonEscape k ++ "\": " ++ pyDumps2 lvl v
      ++ ",\n" ++ dumpsObjItems lvl l w ls
termination_by ls => sizeOf v + sizeOf ls

end

namespace AgenticDemo

/-- The `content` dict assembled by `build_user_content`
(src/agentic/orchestrator_demo.py lines 192-201).  The wall-clock
reading `time.time()` is an ambient input of the Python code and is
made an explicit argument `now` of the embedding. -/
def user_content_json (mission : PyDict) (video_digest : List PyDict)
    (extras : PyDict) (now : ℚ) : Json :=
  .obj
    [("mission", .obj mission),
     ("video_digest", .arr (video_digest.map .obj)),
     ("extras", .obj extras),
     ("context", .obj
       [("current_time", .num now),
        ("mission_priority", .str
          (if pyGetD mission "intent" .null == Json.str "capture_photo"
           then "high" else "medium")),
        ("environment_notes", .str
          ("Detected " ++ toString video_digest.length
            ++ " recent frames with object detections"))])]

/-- Embedding of `build_user_content` (src/agentic/orchestrator_demo.py
lines 189-202): `json.dumps(content, ensure_ascii=False, indent=2)`. -/
def build_user_content (mission : PyDict) (video_digest : List PyDict)
    (extras : PyDict) (now : ℚ) : String :=
  pyDumps2 0 (user_content_json mission video_digest extras now)

/-- The outbound request `call_llm` would issue once the credential
guard has passed; the network transmission itself is external I/O and
out of scope. -/
structure LLMRequest where
  api_key : String
  system_prompt : String
  user_content : String
deriving DecidableEq

/-- The credential guard of `call_llm`
(src/agentic/orchestrator_demo.py lines 208-218): the environment is an
explicit argument; `if not api_key` raises on an absent or empty key
before the OpenAI client is even constructed, so the `.ok` branch is
the only one that carries an outbound request. -/
def call_llm (env : List (String × String))
    (system_prompt user_content : String) : Except String LLMRequest :=
  match (env.find? (fun kv => kv.1 == "OPENAI_API_KEY")).map (fun kv => kv.2) with
  | none => .error "OPENAI_API_KEY not set."
  | some k =>
    if k = "" then .error "OPENAI_API_KEY not set."
    else .ok { api_key := k, system_prompt := system_prompt,
               user_content := user_content }

end AgenticDemo


/-!  Claim-side predicates, written from the specification text, to be
compared against the behaviour of the embedded code. -/

/-- The value stored under `k`, when present, is a JSON object (so that
Python `in` on it means key membership). -/
def objValued (p : PyDict) (k : String) : Bool :=
  match pyLookup p k with
  | some (.obj _) => true
  | some _ => false
  | none => true

/-- The payload shapes on which the validator never hits a
string-substring or `TypeError` corner of Python `in`: the values of
`mission`, `environment_summary` and `plan`, when present, are objects. -/
def WellTypedPayload (p : PyDict) : Bool :=
  objValued p "mission" && objValued p "environment_summary"
    && objValued p "plan"

/-- The value under `k` is an object containing every key of `ks`. -/
def objHasAll (p : PyDict) (k : String) (ks : List String) : Bool :=
  match pyLookup p k with
  | some (.obj kvs) => ks.all (hasKey kvs)
  | _ => false

/-- The presence condition of claim C1, read structurally: all six
required top-level keys, the four mission sub-keys, `video_digest`
under `environment_summary` and `next_action` under `plan` are present
as object keys. -/
def requiredPresent (p : PyDict) : Bool :=
  (["task_id", "mission", "environment_summary", "plan", "safety",
    "server_payload"].all (hasKey p)) &&
  objHasAll p "mission" ["intent", "targets", "constraints", "success"] &&
  objHasAll p "environment_summary" ["video_digest"] &&
  objHasAll p "plan" ["next_action"]

/-- The sub-schema declared under `properties` for a top-level key. -/
def propSchema (schema : Json) (k : String) : Json :=
  match schema with
  | .obj kvs =>
    match pyLookup kvs "properties" with
    | some (.obj props) => (pyLookup props k).getD .null
    | _ => .null
  | _ => .null

/-- Full structural conformance to the contract: every top-level key the
schema requires is present, and for each such key whose sub-schema
declares required sub-keys, the corresponding value is an object
containing all of them. -/
def conformsToContract (schema : Json) (p : PyDict) : Bool :=
  ((schemaRequiredKeys schema).all (hasKey p)) &&
  ((schemaRequiredKeys schema).all (fun k =>
    let req := schemaRequiredKeys (propSchema schema k)
    req.isEmpty || objHasAll p k req))


/-!  ## Theorems for the frozen claims -/

/-- C4: for every command text whose lower-cased form contains "photo"
or "picture", `parse_user_prompt` returns intent `capture_photo` and a
success mapping containing `photo_saved = true`, regardless of any
other keywords in the text. -/
theorem photo_keyword_capture_photo (text : String)
    (h : pyIn "photo" (pyLower text) = true ∨
         pyIn "picture" (pyLower text) = true) :
    (AgenticDemo.parse_user_prompt text).intent = "capture_photo" ∧
    (AgenticDemo.parse_user_prompt text).success.lookup "photo_saved"
      = some true := by
  unfold AgenticDemo.parse_user_prompt
  rcases h with h | h <;> simp [h, List.lookup]

/-- Witness for C4: the theorem applied to a command that also mentions
a coffee shop. -/
theorem photo_keyword_capture_photo_witness :
    (AgenticDemo.parse_user_prompt
        "Take a picture of the coffee shop").intent = "capture_photo" ∧
    (AgenticDemo.parse_user_prompt
        "Take a picture of the coffee shop").success.lookup "photo_saved"
      = some true :=
  photo_keyword_capture_photo "Take a picture of the coffee shop"
    (Or.inr (by decide))

/-- C5: for every command text whose lower-cased form contains
"coffee shop" but neither "photo" nor "picture", `parse_user_prompt`
returns intent `search_poi` with `answer_yes_no = true` in the success
mapping, targets including "coffee shop", and additionally "open_now"
when the text contains "open". -/
theorem coffee_shop_search_poi (text : String)
    (hc : pyIn "coffee shop" (pyLower text) = true)
    (hp : pyIn "photo" (pyLower text) = false)
    (hq : pyIn "picture" (pyLower text) = false) :
    (AgenticDemo.parse_user_prompt text).intent = "search_poi" ∧
    (AgenticDemo.parse_user_prompt text).success.lookup "answer_yes_no"
      = some true ∧
    "coffee shop" ∈ (AgenticDemo.parse_user_prompt text).targets ∧
    (pyIn "open" (pyLower text) = true →
      "open_now" ∈ (AgenticDemo.parse_user_prompt text).targets) := by
  unfold AgenticDemo.parse_user_prompt
  by_cases hr : pyIn "red house" (pyLower text) = true <;>
    by_cases ho : pyIn "open" (pyLower text) = true <;>
      simp [hc, hp, hq, hr, ho, List.lookup]

/-- Witness for C5: the theorem applied to a concrete open-coffee-shop
query. -/
theorem coffee_shop_search_poi_witness :
    (AgenticDemo.parse_user_prompt
        "Is the coffee shop open?").intent = "search_poi" ∧
    (AgenticDemo.parse_user_prompt
        "Is the coffee shop open?").success.lookup "answer_yes_no"
      = some true ∧
    "coffee shop" ∈ (AgenticDemo.parse_user_prompt
        "Is the coffee shop open?").targets ∧
    (pyIn "open" (pyLower "Is the coffee shop open?") = true →
      "open_now" ∈ (AgenticDemo.parse_user_prompt
        "Is the coffee shop open?").targets) :=
  coffee_shop_search_poi "Is the coffee shop open?"
    (by decide) (by decide) (by decide)

/-- C7: every command whose lower-cased form contains "2 mile" or
"two mile" gets the constraint `radius_m = 3218`, and the spec scenario
command produces exactly the stated mission intent. -/
theorem two_mile_radius_constraint :
    (∀ text : String,
      pyIn "2 mile" (pyLower text) = true ∨
        pyIn "two mile" (pyLower text) = true →
      (AgenticDemo.parse_user_prompt text).constraints.lookup "radius_m"
        = some 3218) ∧
    AgenticDemo.parse_user_prompt
        "Search for coffee shops within 2 miles and tell me if any are open now."
      = { intent := "search_poi", targets := ["coffee shop", "open_now"],
          constraints := [("radius_m", 3218)],
          success := [("answer_yes_no", true)], ambiguities := [] } := by
  constructor
  · intro text h
    unfold AgenticDemo.parse_user_prompt
    rcases h with h | h <;> simp [h, List.lookup]
  · decide

/-- Witness for C7: the general conjunct applied to the scenario
command. -/
theorem two_mile_radius_constraint_witness :
    (AgenticDemo.parse_user_prompt
        "Search for coffee shops within 2 miles and tell me if any are open now.").constraints.lookup
        "radius_m" = some 3218 :=
  two_mile_radius_constraint.1
    "Search for coffee shops within 2 miles and tell me if any are open now."
    (Or.inl (by decide))

/-- C9: a command whose lower-cased form contains none of the
recognized keywords degrades to the default mission intent: intent
`navigate`, the single placeholder target, empty constraints and empty
success (the embedding is a total function, so no exception can be
raised). -/
theorem no_keyword_navigate_default (text : String)
    (h1 : pyIn "photo" (pyLower text) = false)
    (h2 : pyIn "picture" (pyLower text) = false)
    (h3 : pyIn "coffee shop" (pyLower text) = false)
    (h4 : pyIn "red house" (pyLower text) = false)
    (h5 : pyIn "2 mile" (pyLower text) = false)
    (h6 : pyIn "two mile" (pyLower text) = false) :
    AgenticDemo.parse_user_prompt text =
      { intent := "navigate", targets := ["target"], constraints := [],
        success := [], ambiguities := [] } := by
  unfold AgenticDemo.parse_user_prompt
  simp [h1, h2, h3, h4, h5, h6]

/-- Witness for C9: the theorem applied to a keyword-free command. -/
theorem no_keyword_navigate_default_witness :
    AgenticDemo.parse_user_prompt "Fly to the tallest building." =
      { intent := "navigate", targets := ["target"], constraints := [],
        success := [], ambiguities := [] } :=
  no_keyword_navigate_default "Fly to the tallest building."
    (by decide) (by decide) (by decide) (by decide) (by decide) (by decide)

/-- C8: when the API-key credential is absent from the environment,
`call_llm` raises the fatal configuration error; the `.error` result is
produced by the guard, before the `.ok` constructor that carries the
outbound request, so no network request is attempted. -/
theorem call_llm_missing_key_raises (env : List (String × String))
    (sp uc : String)
    (h : env.find? (fun kv => kv.1 == "OPENAI_API_KEY") = none) :
    AgenticDemo.call_llm env sp uc = .error "OPENAI_API_KEY not set." := by
  unfold AgenticDemo.call_llm
  rw [h]
  rfl

/-- Witness for C8: the theorem applied to an empty environment. -/
theorem call_llm_missing_key_raises_witness :
    AgenticDemo.call_llm [] "sys" "usr" = .error "OPENAI_API_KEY not set." :=
  call_llm_missing_key_raises [] "sys" "usr" (by decide)

/-- C10: the four core functions duplicated between
`src/orchestrator_demo.py` and `src/agentic/orchestrator_demo.py` are
extensionally equal: on every input each root-copy function returns the
same result as its agentic-copy namesake. -/
theorem duplicate_copies_extensionally_equal :
    (∀ text : String,
      RootDemo.parse_user_prompt text = AgenticDemo.parse_user_prompt text) ∧
    (∀ (features : List PyDict) (max_frames max_objs : Nat),
      RootDemo.summarize_video_features features max_frames max_objs
        = AgenticDemo.summarize_video_features features max_frames max_objs) ∧
    RootDemo.expected_payload_schema = AgenticDemo.expected_payload_schema ∧
    (∀ p : PyDict,
      RootDemo.validate_payload p = AgenticDemo.validate_payload p) :=
  ⟨fun _ => rfl, fun _ _ _ => rfl, rfl, fun _ => rfl⟩

/-- Lemma: the `for`-append loop succeeds with a list of the same
length as its input. -/
theorem mapLoop_ok_length {α β : Type} {f : α → Except Unit β}
    {xs : List α} {ys : List β} (h : mapLoop f xs = .ok ys) :
    ys.length = xs.length := by
  induction xs generalizing ys with
  | nil =>
    simp only [mapLoop] at h
    cases h
    rfl
  | cons x xs ih =>
    simp only [mapLoop] at h
    cases hf : f x with
    | error e => rw [hf] at h; cases h
    | ok y =>
      rw [hf] at h
      cases hm : mapLoop f xs with
      | error e => rw [hm] at h; cases h
      | ok ys2 =>
        rw [hm] at h
        cases h
        simp [ih hm]

/-- Lemma: a successful `for`-append loop maps the `i`-th input to the
`i`-th output. -/
theorem mapLoop_ok_get {α β : Type} {f : α → Except Unit β}
    {xs : List α} {ys : List β} (h : mapLoop f xs = .ok ys) :
    ∀ i (hi : i < xs.length) (hj : i < ys.length),
      f (xs.get ⟨i, hi⟩) = .ok (ys.get ⟨i, hj⟩) := by
  induction xs generalizing ys with
  | nil => intro i hi; cases hi
  | cons x xs ih =>
    simp only [mapLoop] at h
    cases hf : f x with
    | error e => rw [hf] at h; cases h
    | ok y =>
      rw [hf] at h
      cases hm : mapLoop f xs with
      | error e => rw [hm] at h; cases h
      | ok ys2 =>
        rw [hm] at h
        cases h
        intro i hi hj
        cases i with
        | zero => simpa using hf
        | succ n =>
          have hrec := ih hm n (Nat.lt_of_succ_lt_succ hi)
            (Nat.lt_of_succ_lt_succ hj)
          simpa using hrec

/-- Lemma: for a positive count, the Python tail slice has length
`min (len xs) n`. -/
theorem pySliceLast_length {α : Type} (xs : List α) (n : Nat)
    (hn : 0 < n) : (pySliceLast xs n).length = min xs.length n := by
  unfold pySliceLast
  rw [if_neg (Nat.pos_iff_ne_zero.mp hn)]
  rw [List.length_drop]
  omega

/-- The list stored under `"objects"` in a frame dict, empty when the
key is absent (`fr.get("objects", [])`). -/
def frameObjects (fr : PyDict) : List Json :=
  match pyGetD fr "objects" (.arr []) with
  | .arr xs => xs
  | _ => []

/-- Lemma: a successful frame summary keeps exactly the first
`min (number of input objects) max_objs` objects. -/
theorem summarizeFrame_objects_length {mo : Nat} {fr dfr : PyDict}
    (h : AgenticDemo.summarizeFrame mo fr = .ok dfr) :
    (frameObjects dfr).length = min (frameObjects fr).length mo := by
  unfold AgenticDemo.summarizeFrame at h
  cases hobj : pyGetD fr "objects" (.arr []) with
  | arr objs =>
    rw [hobj] at h
    dsimp only at h
    cases hm : mapLoop AgenticDemo.summarizeObj (objs.take mo) with
    | error e => rw [hm] at h; cases h
    | ok outs =>
      rw [hm] at h
      dsimp only at h
      cases h
      have hl := mapLoop_ok_length hm
      simp only [frameObjects, hobj]
      simp [pyGetD, pyLookup, List.find?, hl]
      omega
  | null => rw [hobj] at h; cases h
  | bool b => rw [hobj] at h; cases h
  | num q => rw [hobj] at h; cases h
  | str s => rw [hobj] at h; cases h
  | obj kvs => rw [hobj] at h; cases h

/-- C3: for positive bounds, a successful digest has
`min (len features) max_frames` frames; its `i`-th frame is the
summary of the `i`-th frame of the tail slice
`features[-max_frames:]` (so the frames are the tail slice of the
input in original order), each keeping exactly the first
`min (len objects) max_objs` objects; and an empty input yields an
empty digest. -/
theorem summarize_video_features_bounds
    (features : List PyDict) (max_frames max_objs : Nat)
    (digest : List PyDict)
    (hmf : 0 < max_frames) (_hmo : 0 < max_objs)
    (h : AgenticDemo.summarize_video_features features max_frames max_objs
      = .ok digest) :
    digest.length = min features.length max_frames ∧
    (∀ i (hi : i < digest.length)
        (hj : i < (pySliceLast features max_frames).length),
      AgenticDemo.summarizeFrame max_objs
          ((pySliceLast features max_frames).get ⟨i, hj⟩)
        = .ok (digest.get ⟨i, hi⟩) ∧
      (frameObjects (digest.get ⟨i, hi⟩)).length
        = min (frameObjects
            ((pySliceLast features max_frames).get ⟨i, hj⟩)).length
            max_objs) ∧
    (features = [] → digest = []) := by
  unfold AgenticDemo.summarize_video_features at h
  cases hfe : features.isEmpty
  · rw [hfe] at h
    simp only [Bool.false_eq_true, if_false] at h
    have hlen := mapLoop_ok_length h
    have hslice := pySliceLast_length features max_frames hmf
    refine ⟨by omega, ?_, ?_⟩
    · intro i hi hj
      refine ⟨mapLoop_ok_get h i hj hi, ?_⟩
      exact summarizeFrame_objects_length (mapLoop_ok_get h i hj hi)
    · intro hf
      rw [hf] at hfe
      cases hfe
  · rw [hfe] at h
    simp only [if_true] at h
    cases h
    have : features = [] := List.isEmpty_iff.mp hfe
    simp [this]

/-- Two concrete detection frames used to witness C3. -/
def demoFrames : List PyDict :=
  [[("ts", Json.num 1), ("objects", Json.arr [])],
   [("ts", Json.num 2), ("objects", Json.arr
     [Json.obj [("label", Json.str "car"), ("score", Json.num (mkRat 81 100)),
                ("box", Json.null)],
      Json.obj []])]]

/-- The digest `summarize_video_features demoFrames 1 1` produces: the
last frame only, keeping only its first object. -/
def demoDigest : List PyDict :=
  [[("ts", Json.num 2), ("objects", Json.arr
     [Json.obj [("label", Json.str "car"), ("score", Json.num (mkRat 81 100)),
                ("box", Json.null)]])]]

/-- Witness for C3: the bounds theorem applied to `demoFrames` with
both bounds equal to 1. -/
theorem summarize_video_features_bounds_witness :
    demoDigest.length = min demoFrames.length 1 :=
  (summarize_video_features_bounds demoFrames 1 1 demoDigest
    (by decide) (by decide) (by rfl)).1

/-- Lemma: keeping only the elements failing a test leaves an empty
list exactly when every element passes. -/
theorem filterNot_isEmpty_eq_all (l : List String) (q : String → Bool) :
    (l.filter (fun k => !q k)).isEmpty = l.all q := by
  induction l with
  | nil => rfl
  | cons x xs ih =>
    cases hq : q x <;> simp [List.filter_cons, hq, ih]

/-- Lemma: dict lookup succeeds exactly on present keys. -/
theorem pyLookup_isSome (d : PyDict) (k : String) :
    (pyLookup d k).isSome = hasKey d k := by
  induction d with
  | nil => rfl
  | cons kv d ih =>
    unfold pyLookup hasKey at *
    cases h : kv.1 == k
    · simp only [List.find?_cons, h, List.any_cons, Bool.false_or]
      simpa using ih
    · simp [List.find?_cons, h]

/-- Lemma: on an object, the mission sub-key loop returns the first
sub-key that is not a key of the object. -/
theorem firstMissingKey_obj (m : PyDict) (ks : List String) :
    AgenticDemo.firstMissingKey (.obj m) ks
      = .ok (ks.find? (fun k => !(hasKey m k))) := by
  induction ks with
  | nil => rfl
  | cons k ks ih =>
    unfold AgenticDemo.firstMissingKey
    cases h : hasKey m k <;> simp [pyContains, h, ih, List.find?_cons]

/-- Shared lemma for C1 and C2: on payloads whose `mission`,
`environment_summary` and `plan` values are objects, the validator
accepts exactly the payloads with all checked keys present. -/
theorem validate_ok_iff_aux (p : PyDict) (hw : WellTypedPayload p = true) :
    AgenticDemo.validate_payload p = .ok (true, "ok")
      ↔ requiredPresent p = true := by
  have hreq : schemaRequiredKeys AgenticDemo.expected_payload_schema
      = ["task_id", "mission", "environment_summary", "plan", "safety",
         "server_payload"] := rfl
  unfold AgenticDemo.validate_payload
  rw [hreq]
  dsimp only
  rw [filterNot_isEmpty_eq_all]
  cases hall : ["task_id", "mission", "environment_summary", "plan",
      "safety", "server_payload"].all (hasKey p)
  · simp only [Bool.false_eq_true, if_false]
    refine iff_of_false (by simp) ?_
    unfold requiredPresent
    rw [hall]
    simp
  · simp only [if_true]
    simp only [List.all_cons, List.all_nil, Bool.and_eq_true,
      Bool.and_true] at hall
    obtain ⟨h1, h2, h3, h4, h5, h6⟩ := hall
    unfold WellTypedPayload objValued at hw
    simp only [Bool.and_eq_true] at hw
    obtain ⟨⟨hwM, hwE⟩, hwP⟩ := hw
    cases hvm : pyLookup p "mission" with
    | none =>
      have hs := pyLookup_isSome p "mission"
      rw [hvm, h2] at hs
      cases hs
    | some vm =>
      rw [hvm] at hwM
      cases vm with
      | null => simp at hwM
      | bool b => simp at hwM
      | num q => simp at hwM
      | str sv => simp at hwM
      | arr xs => simp at hwM
      | obj mk =>
        simp only [pyGetItem, hvm]
        rw [firstMissingKey_obj]
        cases hfind : ["intent", "targets", "constraints",
            "success"].find? (fun k => !(hasKey mk k)) with
        | some k =>
          have hkmem := List.mem_of_find?_eq_some hfind
          have hkval : hasKey mk k = false := by
            have := List.find?_some hfind
            simpa using this
          refine iff_of_false (by simp) ?_
          have hB : (["intent", "targets", "constraints",
              "success"].all (hasKey mk)) = false := by
            rw [List.all_eq_false]
            exact ⟨k, hkmem, by simp [hkval]⟩
          unfold requiredPresent objHasAll
          rw [hvm]
          simp [hB]
        | none =>
          have hAll : (["intent", "targets", "constraints",
              "success"].all (hasKey mk)) = true := by
            rw [List.all_eq_true]
            intro x hx
            have := List.find?_eq_none.mp hfind x hx
            simpa using this
          cases hve : pyLookup p "environment_summary" with
          | none =>
            have hs := pyLookup_isSome p "environment_summary"
            rw [hve, h3] at hs
            cases hs
          | some ve =>
            rw [hve] at hwE
            cases ve with
            | null => simp at hwE
            | bool b => simp at hwE
            | num q => simp at hwE
            | str sv => simp at hwE
            | arr xs => simp at hwE
            | obj ek =>
              simp only [pyGetItem, hve, pyContains]
              cases hvd : hasKey ek "video_digest" with
              | false =>
                refine iff_of_false (by simp) ?_
                unfold requiredPresent objHasAll
                rw [hve]
                simp [hvd]
              | true =>
                cases hvp : pyLookup p "plan" with
                | none =>
                  have hs := pyLookup_isSome p "plan"
                  rw [hvp, h4] at hs
                  cases hs
                | some vp =>
                  rw [hvp] at hwP
                  cases vp with
                  | null => simp at hwP
                  | bool b => simp at hwP
                  | num q => simp at hwP
                  | str sv => simp at hwP
                  | arr xs => simp at hwP
                  | obj pk =>
                    simp only [pyGetItem, hvp, pyContains]
                    cases hna : hasKey pk "next_action" with
                    | false =>
                      refine iff_of_false (by simp) ?_
                      unfold requiredPresent objHasAll
                      rw [hvp]
                      simp [hna]
                    | true =>
                      refine iff_of_true rfl ?_
                      unfold requiredPresent objHasAll
                      rw [hvm, hve, hvp]
                      simp [h1, h2, h3, h4, h5, h6, hAll, hvd, hna]

/-- A payload every one of whose membership tests the validator passes
by Python string-substring matching: the `mission`,
`environment_summary` and `plan` values are strings containing the
checked key names as substrings, not objects with those keys. -/
def substringPayload : PyDict :=
  [("task_id", Json.str "x"),
   ("mission", Json.str "intent targets constraints success"),
   ("environment_summary", Json.str "video_digest"),
   ("plan", Json.str "next_action"),
   ("safety", Json.null),
   ("server_payload", Json.null)]

/-- Counterexample to C1 as stated: the validator answers
`(true, "ok")` on `substringPayload`, yet the document does not contain
`intent`, `targets`, `constraints`, `success` under `mission` (nor the
other checked sub-keys): Python `in` on the string values does
substring matching. -/
theorem validate_payload_substring_accepts :
    AgenticDemo.validate_payload substringPayload = .ok (true, "ok") ∧
    requiredPresent substringPayload = false :=
  ⟨rfl, rfl⟩

/-- The C1 scenario document: `mission` present with only `intent`. -/
def c1ExampleDoc : PyDict :=
  [("task_id", Json.str "x"),
   ("mission", Json.obj [("intent", Json.str "navigate")]),
   ("environment_summary", Json.obj [("video_digest", Json.arr [])]),
   ("plan", Json.obj [("next_action", Json.obj [])]),
   ("safety", Json.obj []),
   ("server_payload", Json.obj [])]

/-- C1 (amended): restricted to documents whose `mission`,
`environment_summary` and `plan` values are JSON objects,
`validate_payload` returns `(true, "ok")` iff all six required
top-level keys, the four mission sub-keys, `video_digest` and
`next_action` are present; and on the spec scenario document (mission
with only `intent`) it reports the first failing check,
`mission.targets missing`. -/
theorem validate_payload_ok_iff_required_present :
    (∀ p : PyDict, WellTypedPayload p = true →
      (AgenticDemo.validate_payload p = .ok (true, "ok")
        ↔ requiredPresent p = true)) ∧
    AgenticDemo.validate_payload c1ExampleDoc
      = .ok (false, "mission.targets missing") :=
  ⟨validate_ok_iff_aux, rfl⟩

/-- Witness for C1: the equivalence instantiated at the scenario
document. -/
theorem validate_payload_ok_iff_required_present_witness :
    AgenticDemo.validate_payload c1ExampleDoc = .ok (true, "ok")
      ↔ requiredPresent c1ExampleDoc = true :=
  validate_payload_ok_iff_required_present.1 c1ExampleDoc (by decide)

/-- A document the validator accepts although it conforms only to the
checked part of the contract: `plan` lacks `high_level_steps`, and
`safety` and `server_payload` are empty objects. -/
def shallowPayload : PyDict :=
  [("task_id", Json.str "t1"),
   ("mission", Json.obj [("intent", Json.str "navigate"),
      ("targets", Json.arr []), ("constraints", Json.obj []),
      ("success", Json.obj [])]),
   ("environment_summary", Json.obj [("video_digest", Json.arr [])]),
   ("plan", Json.obj [("next_action", Json.obj [])]),
   ("safety", Json.obj []),
   ("server_payload", Json.obj [])]

/-- Counterexample to C2 as stated: `shallowPayload` is accepted by
`validate_payload` but does not conform to the full contract schema
(it is missing `high_level_steps` under `plan` and every required
sub-key of `safety` and `server_payload`). -/
theorem validate_payload_accepts_nonconforming :
    AgenticDemo.validate_payload shallowPayload = .ok (true, "ok") ∧
    conformsToContract AgenticDemo.expected_payload_schema shallowPayload
      = false :=
  ⟨rfl, by decide⟩

/-- C2 (amended): an accepted well-typed document is guaranteed to have
exactly the checked keys — the six top-level keys, the four mission
sub-keys, `video_digest` under `environment_summary` and `next_action`
under `plan` — not the full contract schema. -/
theorem validate_payload_ok_implies_checked_keys (p : PyDict)
    (hw : WellTypedPayload p = true)
    (h : AgenticDemo.validate_payload p = .ok (true, "ok")) :
    requiredPresent p = true :=
  (validate_ok_iff_aux p hw).mp h

/-- Witness for C2: the amended theorem applied to the accepted
document `shallowPayload`. -/
theorem validate_payload_ok_implies_checked_keys_witness :
    requiredPresent shallowPayload = true :=
  validate_payload_ok_implies_checked_keys shallowPayload (by decide) rfl

/-- Counterexample to C6: two invocations of the agentic
`build_user_content` with identical mission, digest and extras return
different strings at wall-clock readings 0 and 1 — the clock reading
is embedded in the output document. -/
theorem build_user_content_clock_dependent :
    AgenticDemo.build_user_content [] [] [] 0
      ≠ AgenticDemo.build_user_content [] [] [] 1 := by
  simp only [AgenticDemo.build_user_content, AgenticDemo.user_content_json,
    pyDumps2, dumpsObjItems, dumpsArrItems, List.map_nil]
  decide

/-- C6 (amended): the output of the agentic `build_user_content` is a
function of its three arguments and the wall-clock reading, and of
nothing else; two invocations with equal arguments return equal
strings exactly when the embedded clock readings serialize to the same
text.  (The copy in `src/orchestrator_demo.py` reads no clock: its
output has no `context` block.) -/
theorem build_user_content_eq_iff_clock_repr (m : PyDict)
    (d : List PyDict) (e : PyDict) (t u : ℚ) :
    AgenticDemo.build_user_content m d e t
      = AgenticDemo.build_user_content m d e u
      ↔ numRepr t = numRepr u := by
  unfold AgenticDemo.build_user_content AgenticDemo.user_content_json
  simp only [pyDumps2, dumpsObjItems, dumpsArrItems]
  constructor
  · intro h
    have hd := congrArg String.data h
    simp only [String.data_append, List.append_assoc,
      List.append_cancel_left_eq, List.append_cancel_right_eq] at hd
    exact String.ext hd
  · intro h
    rw [h]
